import Mathlib

/-
Verification of the crash-diagnostic launcher in
src/rust/memguard/abort_handler.c.

The program is 36 lines of C: `main` installs `abort_handler` for SIGABRT
via `signal`, then replaces the process image with `execvp(argv[1], argv+1)`;
on exec failure it runs `perror("execvp")` and returns 1.  The handler
prints a banner, the signal number, a frame count obtained from
`backtrace(array, 100)`, one line per frame from `backtrace_symbols`,
a closing banner, and calls `exit(134)`.

The embedding below is a direct shallow translation.  Output to standard
error is modelled as a list of structured lines (each constructor renders,
via `Line.text`, to the exact text of the corresponding fprintf); the
platform-supplied parts (whether `signal` fails, whether the caught
disposition survives image replacement, what `backtrace_symbols` returns,
what `execvp` does for a given command) are explicit parameters.
-/

set_option autoImplicit false

namespace CrashLauncher

/-- One line written to standard error.  Each constructor corresponds to one
newline-terminated piece of a fprintf in the source; `Line.text` gives the
exact rendered text. -/
inductive Line where
  /-- An empty line: the lone leading newline of the opening banner write and
  the trailing extra newline of the closing banner write. -/
  | blank
  /-- The opening banner, line 8 of the source. -/
  | banner
  /-- The received signal number, line 9 of the source. -/
  | signalLine (sig : Int)
  /-- The captured frame count, line 18 of the source. -/
  | countLine (n : Nat)
  /-- One frame description from `backtrace_symbols`, line 21 of the source. -/
  | frameLine (s : String)
  /-- The closing banner, line 24 of the source. -/
  | closingBanner
  /-- The `perror("execvp")` diagnostic, line 34 of the source: the prefix
  `execvp: ` followed by the OS error description for `errno`. -/
  | perrorLine (msg : String)
  deriving DecidableEq, Repr

/-- Exact text of each stderr line, from the fprintf format strings of the
source. -/
def Line.text : Line → String
  | .blank => ""
  | .banner => "=== SIGABRT CAUGHT IN C HANDLER ==="
  | .signalLine sig => "Signal: " ++ toString sig
  | .countLine n => "Obtained " ++ toString n ++ " stack frames."
  | .frameLine s => s
  | .closingBanner => "================================"
  | .perrorLine msg => "execvp: " ++ msg

/-- Result of one run of the handler: either a call of `exit(code)` after
writing the given lines, or a crash inside the handler (the null-pointer
dereference of `strings[i]`) after writing the given lines. -/
inductive HandlerResult where
  | exited (lines : List Line) (code : Int)
  | fault (lines : List Line)
  deriving DecidableEq, Repr

/-- The stderr lines a handler run managed to write. -/
def HandlerResult.lines : HandlerResult → List Line
  | .exited l _ => l
  | .fault l => l

/-- Whether the handler run ended in `exit(134)`. -/
def HandlerResult.exitsWith134 : HandlerResult → Bool
  | .exited _ c => c == 134
  | .fault _ => false

/-- Whether a line is a per-frame description line. -/
def Line.isFrame : Line → Bool
  | .frameLine _ => true
  | _ => false

/-- Source line 15, `size = backtrace(array, 100)`: the capture buffer is the
fixed array `void *array[100]`, so at most the 100 innermost frames of the
call stack (given innermost first, as `backtrace` delivers them) are
captured.  Addresses are modelled as naturals. -/
def backtrace (stack : List Nat) : List Nat :=
  stack.take 100

/-- Source line 16, `strings = backtrace_symbols(array, size)`: turns each
captured address into a description string.  The platform symbolizer is
`some f` when the call succeeds (`f` yields the symbolic description, or the
raw-address text when no symbol is available) and `none` when it fails by
returning a null pointer (its internal allocation failed). -/
def backtrace_symbols (symbols : Option (Nat → String)) (array : List Nat) :
    Option (List String) :=
  symbols.map fun f => array.map f

/-- The abort signal number, `SIGABRT` in signal.h. -/
def SIGABRT : Int := 6

/-- The segmentation-fault signal number, `SIGSEGV` in signal.h; raised by a
null-pointer dereference. -/
def SIGSEGV : Int := 11

/-- Shallow embedding of `abort_handler` (source lines 7 to 27).  Writes the
opening blank line and banner, the signal line, the frame-count line, then
one line per captured frame (innermost first, in capture order), the closing
banner and a final blank line, and exits with code 134.  When
`backtrace_symbols` returns a null pointer and at least one frame was
captured, the loop body dereferences `strings[i]` at `i = 0` and the handler
crashes after the frame-count line; with zero captured frames the loop body
never runs, `free(NULL)` is a no-op, and the handler still exits 134. -/
def abort_handler (sig : Int) (stack : List Nat)
    (symbols : Option (Nat → String)) : HandlerResult :=
  let array := backtrace stack
  let size := array.length
  let header : List Line :=
    [Line.blank, Line.banner, Line.signalLine sig, Line.countLine size]
  match backtrace_symbols symbols array with
  | some strings =>
      .exited (header ++ strings.map Line.frameLine
        ++ [Line.closingBanner, Line.blank]) 134
  | none =>
      if size = 0 then
        .exited (header ++ [Line.closingBanner, Line.blank]) 134
      else
        .fault header

/-- How the process ended: through `exit` / `return` with a code, or killed
by a signal under its default disposition. -/
inductive Termination where
  | exited (code : Int)
  | signaled (sig : Int)
  deriving DecidableEq, Repr

/-- The exit status an observer (a shell, `waitpid` plus the conventional
encoding) sees, per the glossary of the specification: a normal exit reports
its code, termination by signal `s` is encoded as `128 + s`. -/
def observedExitCode : Termination → Int
  | .exited c => c
  | .signaled s => 128 + s

/-- What the target program does once the image is replaced: exit normally
with a code, or raise the abort signal with the given call stack (innermost
frame first) live at delivery. -/
inductive TargetBehavior where
  | exitsNormally (code : Int)
  | raisesAbort (stack : List Nat)
  deriving DecidableEq, Repr

/-- Outcome of `execvp` for a given command and argument vector: the image
is replaced and the target then behaves as given, or the call fails (file
not found, not executable, permission denied) and returns, with the OS error
description that `perror` will print. -/
inductive ExecResult where
  | replaced (target : TargetBehavior)
  | failed (msg : String)
  deriving DecidableEq, Repr

/-- Platform-determined facts the source does not control.
`sigabrtResets` is modelled from the spec: section 9 records that custom
handlers for caught signals are typically reset to the default disposition
across image replacement (the POSIX `execve` rule); the source contains no
code that could override this.  `signalFails` models `signal` returning
`SIG_ERR` (the source ignores the return value either way).  `symbolize` is
the symbolizer `backtrace_symbols` uses, `none` meaning it returns a null
pointer. -/
structure Platform where
  signalFails : Bool
  sigabrtResets : Bool
  symbolize : Option (Nat → String)

/-- Everything observable about one run of the launcher process.
`execCommand` and `execArgs` are the file argument and the argument vector
handed to `execvp`; `stderrLog` is the standard-error output the launcher
itself produced (the target program may write more, which is out of scope);
`handlerFired` records whether `abort_handler` ran; `abortDelivered` records
whether the abort signal was delivered to the process. -/
structure RunResult where
  execCommand : Option String
  execArgs : List String
  stderrLog : List Line
  termination : Termination
  handlerFired : Bool
  abortDelivered : Bool
  deriving DecidableEq, Repr

/-- Shallow embedding of `main` (source lines 29 to 36) together with the
delivery semantics of the abort signal.  `argv` is the full C argument
vector, `argv[0]` being the launcher name; reading index 1 of a one-element
list yields `none`, which models the terminating null pointer of the C
vector.  Steps, in source order:
line 30, `signal(SIGABRT, abort_handler)` installs the handler unless the
platform makes registration fail; the return value is not inspected and no
branch depends on it;
line 33, `execvp(argv[1], argv + 1)` is reached unconditionally;
on exec failure, line 34 `perror("execvp")` and line 35 `return 1`;
on success the image is replaced, and the caught disposition survives only
when the platform does not reset it.  If the target then raises the abort
signal, the handler runs when its disposition survived (an exit from the
handler ends the process with that code; a crash inside the handler kills
the process with the segmentation-fault signal), and otherwise the default
abort disposition kills the process with the abort signal. -/
def main (argv : List String) (os : Platform)
    (exec : Option String → List String → ExecResult) : RunResult :=
  match exec argv[1]? (argv.drop 1) with
  | .failed msg =>
      { execCommand := argv[1]?, execArgs := argv.drop 1
        stderrLog := [Line.perrorLine msg]
        termination := .exited 1
        handlerFired := false, abortDelivered := false }
  | .replaced (.exitsNormally c) =>
      { execCommand := argv[1]?, execArgs := argv.drop 1
        stderrLog := []
        termination := .exited c
        handlerFired := false, abortDelivered := false }
  | .replaced (.raisesAbort stack) =>
      if !os.signalFails && !os.sigabrtResets then
        match abort_handler SIGABRT stack os.symbolize with
        | .exited lines code =>
            { execCommand := argv[1]?, execArgs := argv.drop 1
              stderrLog := lines
              termination := .exited code
              handlerFired := true, abortDelivered := true }
        | .fault lines =>
            { execCommand := argv[1]?, execArgs := argv.drop 1
              stderrLog := lines
              termination := .signaled SIGSEGV
              handlerFired := true, abortDelivered := true }
      else
        { execCommand := argv[1]?, execArgs := argv.drop 1
          stderrLog := []
          termination := .signaled SIGABRT
          handlerFired := false, abortDelivered := true }

/-- Filtering a list of frame lines for frame lines keeps every element. -/
theorem filter_isFrame_map_frameLine (l : List String) :
    (l.map Line.frameLine).filter Line.isFrame = l.map Line.frameLine := by
  induction l with
  | nil => rfl
  | cons a t ih => simp [Line.isFrame, ih]

/-- In every branch of `main`, `execvp` has been invoked with `argv[1]` as
the file and `argv + 1` as the argument vector. -/
theorem main_exec_fields (argv : List String) (os : Platform)
    (exec : Option String → List String → ExecResult) :
    (main argv os exec).execCommand = argv[1]? ∧
      (main argv os exec).execArgs = argv.drop 1 := by
  obtain ⟨sf, rs, sym⟩ := os
  cases hE : exec argv[1]? (argv.drop 1) with
  | failed msg => simp only [main, hE]; exact ⟨by trivial, by trivial⟩
  | replaced t =>
    cases t with
    | exitsNormally c => simp only [main, hE]; exact ⟨by trivial, by trivial⟩
    | raisesAbort stack =>
      cases sf <;> cases rs <;> simp only [main, hE] <;>
        first
          | exact ⟨by trivial, by trivial⟩
          | (cases abort_handler SIGABRT stack sym <;>
              exact ⟨by trivial, by trivial⟩)

/-- C2: whenever the handler runs and symbolization yields a frame array,
it writes, in order: a blank line and the banner, the signal line for the
received signal number, the frame-count line for the number of captured
frames, one frame line per captured frame in capture order (innermost frame
first), the closing banner and a final blank line; the number of frame lines
equals the reported count; and it then exits with code 134.  (Amended from
the claim: with a null `backtrace_symbols` result and a nonzero frame count
the handler instead crashes before any frame line; see the counterexample.) -/
theorem handler_report_shape (sig : Int) (stack : List Nat)
    (f : Nat → String) :
    abort_handler sig stack (some f) =
      .exited ([Line.blank, Line.banner, Line.signalLine sig,
          Line.countLine (backtrace stack).length]
        ++ ((backtrace stack).map f).map Line.frameLine
        ++ [Line.closingBanner, Line.blank]) 134 ∧
      (((backtrace stack).map f).map Line.frameLine).length
        = (backtrace stack).length := by
  exact ⟨rfl, by simp⟩

/-- C2, counterexample to the claim as stated: with one captured frame and
`backtrace_symbols` returning a null pointer, the handler run writes only
the header lines — no frame line and no closing banner — and does not
terminate with exit code 134. -/
theorem handler_alloc_failure_no_exit134 :
    (abort_handler 6 [0] none).exitsWith134 = false ∧
      (abort_handler 6 [0] none).lines
        = [Line.blank, Line.banner, Line.signalLine 6, Line.countLine 1] := by
  exact ⟨rfl, rfl⟩

/-- C5: evaluation of the code at the failing input.  With signal 6, two
captured frames and `backtrace_symbols` returning a null pointer (its
internal allocation failed), the handler dereferences the null `strings`
array in the print loop and crashes after the frame-count line, instead of
completing its report and exiting 134 as the specification requires. -/
theorem handler_faults_on_null_symbols :
    abort_handler 6 [7, 8] none
      = .fault [Line.blank, Line.banner, Line.signalLine 6,
          Line.countLine 2] := rfl

/-- C9: the capture buffer is a fixed 100-entry array, so the number of
captured frames — the count the handler reports — and the number of
per-frame lines in any handler run never exceed 100. -/
theorem frame_capture_bounded (sig : Int) (stack : List Nat)
    (symbols : Option (Nat → String)) :
    (backtrace stack).length ≤ 100 ∧
      ((abort_handler sig stack symbols).lines.filter Line.isFrame).length
        ≤ 100 := by
  have hlen : (backtrace stack).length ≤ 100 := by
    simp [backtrace, List.length_take]
  refine ⟨hlen, ?_⟩
  cases symbols with
  | some f =>
    have h1 : (abort_handler sig stack (some f)).lines
        = [Line.blank, Line.banner, Line.signalLine sig,
            Line.countLine (backtrace stack).length]
          ++ ((backtrace stack).map f).map Line.frameLine
          ++ [Line.closingBanner, Line.blank] := rfl
    rw [h1, List.filter_append, List.filter_append,
      filter_isFrame_map_frameLine]
    simpa [Line.isFrame] using hlen
  | none =>
    by_cases h : (backtrace stack).length = 0 <;>
      simp [abort_handler, backtrace_symbols, h, HandlerResult.lines,
        Line.isFrame]

/-- C3: when `execvp` fails to start the target, control returns to the
caller, the single diagnostic line `execvp: ` followed by the OS error
description is written to standard error, and the process exits with status
1, which differs from 134. -/
theorem execvp_failure_reports_and_exits_1 (argv : List String)
    (os : Platform) (exec : Option String → List String → ExecResult)
    (msg : String) (h : exec argv[1]? (argv.drop 1) = .failed msg) :
    (main argv os exec).stderrLog = [Line.perrorLine msg] ∧
      (main argv os exec).termination = .exited 1 ∧
      observedExitCode (main argv os exec).termination = 1 ∧
      observedExitCode (main argv os exec).termination ≠ 134 := by
  simp only [main, h]
  refine ⟨by trivial, by trivial, by trivial, ?_⟩
  simp [observedExitCode]

/-- C3, witness: a concrete run in which `execvp` reports that the target
does not exist. -/
theorem execvp_failure_reports_and_exits_1_witness :
    (main ["launcher", "/no/such/path"]
        ⟨false, true, none⟩
        (fun _ _ => .failed "No such file or directory")).stderrLog
      = [Line.perrorLine "No such file or directory"] ∧
    (main ["launcher", "/no/such/path"]
        ⟨false, true, none⟩
        (fun _ _ => .failed "No such file or directory")).termination
      = .exited 1 ∧
    observedExitCode (main ["launcher", "/no/such/path"]
        ⟨false, true, none⟩
        (fun _ _ => .failed "No such file or directory")).termination = 1 ∧
    observedExitCode (main ["launcher", "/no/such/path"]
        ⟨false, true, none⟩
        (fun _ _ => .failed "No such file or directory")).termination
      ≠ 134 :=
  execvp_failure_reports_and_exits_1 ["launcher", "/no/such/path"]
    ⟨false, true, none⟩ (fun _ _ => .failed "No such file or directory")
    "No such file or directory" rfl

/-- C7: failure of signal-handler registration is non-fatal and silent:
for every run, even with registration failing, `execvp` is still reached
with the same file and argument vector, and on any run in which the abort
signal is not delivered the whole observable outcome is identical to the
run in which registration succeeded. -/
theorem registration_failure_nonfatal (argv : List String) (os : Platform)
    (exec : Option String → List String → ExecResult) :
    (main argv { os with signalFails := true } exec).execCommand
      = argv[1]? ∧
    (main argv { os with signalFails := true } exec).execArgs
      = argv.drop 1 ∧
    ((main argv { os with signalFails := true } exec).abortDelivered = false →
      main argv { os with signalFails := true } exec
        = main argv { os with signalFails := false } exec) := by
  obtain ⟨sf, rs, sym⟩ := os
  refine ⟨(main_exec_fields argv ⟨true, rs, sym⟩ exec).1,
    (main_exec_fields argv ⟨true, rs, sym⟩ exec).2, ?_⟩
  intro hnd
  cases hE : exec argv[1]? (argv.drop 1) with
  | failed msg => simp only [main, hE]
  | replaced t =>
    cases t with
    | exitsNormally c => simp only [main, hE]
    | raisesAbort stack =>
      exfalso
      simp only [main, hE] at hnd
      exact absurd hnd (by simp)

/-- C7, witness: with registration failing and a target that cannot be
started, invocation is still attempted with the right arguments and the run
is indistinguishable from the one with working registration. -/
theorem registration_failure_nonfatal_witness :
    (main ["launcher", "tool"] ⟨true, false, none⟩
        (fun _ _ => .failed "Permission denied")).execCommand
      = some "tool" ∧
    (main ["launcher", "tool"] ⟨true, false, none⟩
        (fun _ _ => .failed "Permission denied")).execArgs = ["tool"] ∧
    main ["launcher", "tool"] ⟨true, false, none⟩
        (fun _ _ => .failed "Permission denied")
      = main ["launcher", "tool"] ⟨false, false, none⟩
        (fun _ _ => .failed "Permission denied") := by
  have h := registration_failure_nonfatal ["launcher", "tool"]
    ⟨false, false, none⟩ (fun _ _ => .failed "Permission denied")
  exact ⟨h.1, h.2.1, h.2.2 rfl⟩

/-- C8: for a command line with at least one argument after the launcher
name, `execvp` receives the executable named by the first argument, and the
argument vector handed to the target is exactly that name followed by the
remaining arguments verbatim, in their original order, with nothing consumed
or inserted. -/
theorem argv_passthrough_verbatim (launcher cmd : String)
    (rest : List String) (os : Platform)
    (exec : Option String → List String → ExecResult) :
    (main (launcher :: cmd :: rest) os exec).execCommand = some cmd ∧
      (main (launcher :: cmd :: rest) os exec).execArgs = cmd :: rest := by
  simpa using main_exec_fields (launcher :: cmd :: rest) os exec

/-- C10: the launcher never checks its argument count: invoked with zero
command-line arguments, `main` still reaches `execvp` with the argument
vector's terminating null pointer (modelled as `none`) as the file and the
empty vector as the arguments, rather than rejecting the call or printing a
usage error first. -/
theorem no_argc_validation (launcherName : String) (os : Platform)
    (exec : Option String → List String → ExecResult) :
    (main [launcherName] os exec).execCommand = none ∧
      (main [launcherName] os exec).execArgs = [] := by
  simpa using main_exec_fields [launcherName] os exec

/-- C1, amended: for every run in which the target raises the abort signal
after image replacement (and symbolization does not fail), the
shell-observable exit status of the launcher process is 134 — either the
surviving handler fires and calls `exit(134)`, or, under the platform rule
that caught dispositions are reset across replacement, the default abort
disposition kills the process with signal 6, observed as 128 + 6; whether
the handler actually fires is platform-dependent, not guaranteed. -/
theorem abort_observed_status_134 (argv : List String) (os : Platform)
    (exec : Option String → List String → ExecResult) (stack : List Nat)
    (f : Nat → String) (hsym : os.symbolize = some f)
    (hE : exec argv[1]? (argv.drop 1) = .replaced (.raisesAbort stack)) :
    observedExitCode (main argv os exec).termination = 134 := by
  rw [List.drop_one] at hE
  cases hsf : os.signalFails <;> cases hrs : os.sigabrtResets <;>
    simp [main, hE, hsf, hrs, hsym, abort_handler, backtrace_symbols,
      observedExitCode, SIGABRT]

/-- C1, witness: a concrete aborting run on a platform that resets the
caught disposition across replacement still shows observable status 134. -/
theorem abort_observed_status_134_witness :
    observedExitCode (main ["launcher", "prog"]
        ⟨false, true, some fun _ => "frame"⟩
        (fun _ _ => .replaced (.raisesAbort [1, 2]))).termination = 134 :=
  abort_observed_status_134 ["launcher", "prog"]
    ⟨false, true, some fun _ => "frame"⟩
    (fun _ _ => .replaced (.raisesAbort [1, 2])) [1, 2] (fun _ => "frame")
    rfl rfl

/-- C1, counterexample to the claim as stated: on a platform following the
reset-on-replacement rule the spec records, a target abort after image
replacement does not run the handler at all — the process is killed by the
abort signal under its default disposition — so the part of the claim
asserting that the handler installed before replacement still fires is
false. -/
theorem handler_not_reached_after_reset :
    (main ["launcher", "prog"] ⟨false, true, some fun _ => "frame"⟩
        (fun _ _ => .replaced (.raisesAbort [1, 2]))).abortDelivered
      = true ∧
    (main ["launcher", "prog"] ⟨false, true, some fun _ => "frame"⟩
        (fun _ _ => .replaced (.raisesAbort [1, 2]))).handlerFired
      = false ∧
    (main ["launcher", "prog"] ⟨false, true, some fun _ => "frame"⟩
        (fun _ _ => .replaced (.raisesAbort [1, 2]))).termination
      = .signaled SIGABRT :=
  ⟨rfl, rfl, rfl⟩

/-- C6, amended: the banner appears on standard error only if the abort
signal was delivered — in particular it never appears on a run in which the
target exits normally or in which `execvp` fails.  (The converse direction
of the claim is false: under the reset-on-replacement rule an abort can be
delivered without the banner ever appearing; see the counterexample.) -/
theorem banner_only_if_abort_delivered (argv : List String) (os : Platform)
    (exec : Option String → List String → ExecResult)
    (h : Line.banner ∈ (main argv os exec).stderrLog) :
    (main argv os exec).abortDelivered = true := by
  cases hE : exec argv[1]? (argv.drop 1) with
  | failed msg =>
    rw [List.drop_one] at hE
    simp [main, hE] at h
  | replaced t =>
    cases t with
    | exitsNormally c =>
      rw [List.drop_one] at hE
      simp [main, hE] at h
    | raisesAbort stack =>
      rw [List.drop_one] at hE
      cases hsf : os.signalFails <;> cases hrs : os.sigabrtResets <;>
        first
          | (simp [main, hE, hsf, hrs]; done)
          | (simp [main, hE, hsf, hrs];
              cases abort_handler SIGABRT stack os.symbolize <;> simp)

/-- C6, witness: a run on a platform where the caught disposition survives
replacement, whose target aborts: the banner is in the standard-error log
and the abort signal was indeed delivered. -/
theorem banner_only_if_abort_delivered_witness :
    Line.banner ∈ (main ["launcher", "crasher"]
        ⟨false, false, some fun _ => "sym"⟩
        (fun _ _ => .replaced (.raisesAbort [5]))).stderrLog ∧
    (main ["launcher", "crasher"] ⟨false, false, some fun _ => "sym"⟩
        (fun _ _ => .replaced (.raisesAbort [5]))).abortDelivered = true :=
  ⟨by decide, banner_only_if_abort_delivered ["launcher", "crasher"]
    ⟨false, false, some fun _ => "sym"⟩
    (fun _ _ => .replaced (.raisesAbort [5])) (by decide)⟩

/-- C6, counterexample to the claim as stated: under the
reset-on-replacement rule, a run whose target raises the abort signal has
the signal delivered yet writes no banner — the launcher writes nothing at
all to standard error — so banner presence is not equivalent to abort
delivery. -/
theorem abort_without_banner_after_reset :
    (main ["launcher", "victim"] ⟨false, true, none⟩
        (fun _ _ => .replaced (.raisesAbort [9]))).abortDelivered = true ∧
    Line.banner ∉ (main ["launcher", "victim"] ⟨false, true, none⟩
        (fun _ _ => .replaced (.raisesAbort [9]))).stderrLog :=
  ⟨rfl, by decide⟩

end CrashLauncher
